import Mathlib

/-
Verification development for the Secure-Internal-Chatbot-Design front end.
The definitions below are shallow embeddings of the TypeScript sources under
src/: the admin settings forms, the auth context (the session store of the
spec), the protected-route gate, the API client, and the chat page handlers.
JS numbers entering the settings form are modelled as rationals, parseInt
results as integers, and timestamps in milliseconds as naturals.
-/

namespace Chatbot

/-- Role of a user account, from the User interface in src/lib/api/auth.ts:
user, admin, or super-admin. -/
inductive Role
  | user
  | admin
  | superAdmin
  deriving DecidableEq, Repr

/-- User record, from src/lib/api/auth.ts. -/
structure User where
  id : String
  email : String
  name : String
  role : Role
  createdAt : String
  deriving DecidableEq, Repr

/-- System settings record, from src/lib/api/admin.ts (SystemSettings).
Temperature is a JS number, modelled as a rational; maxTokens and rateLimit
come from parseInt inputs and are modelled as integers. -/
@[ext]
structure SystemSettings where
  model : String
  temperature : ℚ
  maxTokens : ℤ
  systemPrompt : String
  rateLimit : ℤ
  deriving DecidableEq, Repr

/-- The two settings submission paths of the repository: the dashboard form in
src/app/admin/page.tsx and the second SystemSettingsForm in the
src/components/chat/MessageBubble.tsx source file. -/
inductive SettingsPath
  | dashboard
  | secondary
  deriving DecidableEq, Repr

/-- Payload built by handleSubmit of SystemSettingsForm in
src/app/admin/page.tsx lines 315-319: temperature is clamped with
Math.min(2, Math.max(0, t)) and maxTokens with Math.min(4096, Math.max(1, m)). -/
def dashboardSubmitPayload (formData : SystemSettings) : SystemSettings :=
  { formData with
      temperature := min 2 (max 0 formData.temperature)
      maxTokens := min 4096 (max 1 formData.maxTokens) }

/-- Payload built by handleSubmit of the second SystemSettingsForm (in the
src/components/chat/MessageBubble.tsx source file, lines 403-411): the form
data is passed to onUpdate unchanged, with no clamping. -/
def secondarySubmitPayload (formData : SystemSettings) : SystemSettings :=
  formData

/-- Payload passed to updateSystemSettings on each settings submission path. -/
def submitPayload : SettingsPath → SystemSettings → SystemSettings
  | SettingsPath.dashboard, f => dashboardSubmitPayload f
  | SettingsPath.secondary, f => secondarySubmitPayload f

/-- Fixed mock user installed in bypass mode, src/contexts/AuthContext.tsx
lines 31-37. -/
def MOCK_USER : User :=
  { id := "test-user"
    email := "test@example.com"
    name := "Test User"
    role := Role.admin
    createdAt := "2024-01-01T00:00:00Z" }

/-- Fixed mock token, src/contexts/AuthContext.tsx line 39. -/
def MOCK_TOKEN : String := "mock-test-token"

/-- The environment variables read by the auth code. -/
structure Env where
  nextPublicUseMockAuth : Option String
  nodeEnv : Option String

/-- Bypass flag, src/contexts/AuthContext.tsx lines 27-29 (the identical
computation also appears in src/components/auth/ProtectedRoute.tsx line 13):
true when NEXT_PUBLIC_USE_MOCK_AUTH is the string true or NODE_ENV is
development. -/
def USE_MOCK_AUTH (env : Env) : Bool :=
  env.nextPublicUseMockAuth == some "true" || env.nodeEnv == some "development"

/-- Browser storage slice holding the auth token and the user id. The token
key is written by ApiClient.setToken in src/lib/api/client.ts; the user id
accompanies it per the spec (persisted client state: auth token and user id). -/
structure StorageState where
  token : Option String
  userId : Option String
  deriving DecidableEq, Repr

/-- setToken, src/lib/api/client.ts lines 170-176: stores the token, or
removes it when passed null. -/
def ApiClient.setToken (s : StorageState) (token : Option String) : StorageState :=
  { s with token := token }

/-- Modelled from the spec: apiClient.setUserId is invoked from the auth code
but the captured ApiClient class lacks its definition; the spec records a
persisted user id alongside the token and mutation only through explicit
setter calls, so setUserId is modelled as storing or removing the user id. -/
def ApiClient.setUserId (s : StorageState) (userId : Option String) : StorageState :=
  { s with userId := userId }

/-- Client-side auth state held by AuthProvider in
src/contexts/AuthContext.tsx: the user, the loading flag, the last-activity
timestamp and the browser storage slice. -/
structure ClientState where
  user : Option User
  loading : Bool
  lastActivity : Nat
  storage : StorageState
  deriving DecidableEq, Repr

/-- The applyUser callback, src/contexts/AuthContext.tsx lines 46-55: stores
the user, writes the user id through setUserId, writes or clears the mock
token when in bypass mode, and refreshes lastActivity when a user is set. -/
def applyUser (useMockAuth : Bool) (now : Nat) (st : ClientState)
    (nextUser : Option User) : ClientState :=
  let st1 := { st with
    user := nextUser
    storage := ApiClient.setUserId st.storage (nextUser.map User.id) }
  let mockToken : Option String := if nextUser.isSome then some MOCK_TOKEN else none
  let st2 :=
    if useMockAuth then { st1 with storage := ApiClient.setToken st1.storage mockToken }
    else st1
  if nextUser.isSome then { st2 with lastActivity := now } else st2

/-- Parsed JSON body of a response: the optional message field consulted by
the error path, and an abstract remainder. -/
structure JsonBody where
  message : Option String
  rest : String
  deriving DecidableEq, Repr

/-- The empty object produced when response.json() rejects. -/
def emptyBody : JsonBody := { message := none, rest := "" }

/-- ApiError, src/lib/api/client.ts lines 99-108: message, HTTP status, and
the optional response data (absent on network failures). -/
structure ApiError where
  message : String
  status : Nat
  data : Option JsonBody
  deriving DecidableEq, Repr

/-- Result of awaiting response.json() inside request. -/
inductive BodyParse
  | parsed (b : JsonBody)
  | failed
  deriving DecidableEq, Repr

/-- The body used by request: the parsed JSON, or the empty object when
parsing rejected (the .catch of line 143). -/
def parseBody : BodyParse → JsonBody
  | BodyParse.parsed b => b
  | BodyParse.failed => emptyBody

/-- Outcome of the fetch call inside request: a response with a status and a
body-parse result, or a rejection of fetch itself. -/
inductive FetchOutcome
  | response (status : Nat) (body : BodyParse)
  | networkFailure (message : String)
  deriving DecidableEq, Repr

/-- Response.ok: status in the range 200 to 299. -/
def responseOk (status : Nat) : Bool :=
  200 ≤ status && status ≤ 299

/-- JS truthiness fallback a || b on the optional message string: both a
missing field and an empty string fall back to the default. -/
def jsOrElse (s : Option String) (dflt : String) : String :=
  match s with
  | some t => if t = "" then dflt else t
  | none => dflt

/-- The default error message built on line 147 of src/lib/api/client.ts. -/
def httpErrorMessage (status : Nat) : String :=
  "HTTP error! status: " ++ toString status

/-- Exceptions crossing the try block of request: an ApiError value, or any
other thrown value (a network failure, carrying its message). -/
inductive Thrown
  | api (e : ApiError)
  | other (message : String)
  deriving DecidableEq, Repr

/-- The try block of ApiClient.request, src/lib/api/client.ts lines 141-153:
parse the body, succeed on an ok response, and throw an ApiError carrying the
status and the parsed data on a non-ok response. -/
def requestTryBlock (outcome : FetchOutcome) : Except Thrown JsonBody :=
  match outcome with
  | FetchOutcome.networkFailure msg => Except.error (Thrown.other msg)
  | FetchOutcome.response status bp =>
      let data := parseBody bp
      if responseOk status then Except.ok data
      else Except.error (Thrown.api
        { message := jsOrElse data.message (httpErrorMessage status)
          status := status
          data := some data })

/-- ApiClient.request, src/lib/api/client.ts lines 121-163: the catch clause
rethrows an ApiError unchanged and wraps anything else as an ApiError with
status 0 and no data. -/
def ApiClient.request (outcome : FetchOutcome) : Except ApiError JsonBody :=
  match requestTryBlock outcome with
  | Except.ok d => Except.ok d
  | Except.error (Thrown.api e) => Except.error e
  | Except.error (Thrown.other msg) =>
      Except.error { message := msg, status := 0, data := none }

/-- HTTP method of a call issued through the client. -/
inductive Method
  | get
  | post
  | put
  | delete
  deriving DecidableEq, Repr

/-- The public get/post/put/delete methods, src/lib/api/client.ts lines
178-200: each delegates to request with the method set in the options. -/
def ApiClient.call (m : Method) (outcome : FetchOutcome) : Except ApiError JsonBody :=
  ApiClient.request outcome

/-- The request path with the storage slice threaded through: request reads
the token (getToken, line 125) to attach the bearer header and performs no
storage writes, so the storage component is returned unchanged. -/
def ApiClient.callWithStorage (m : Method) (s : StorageState)
    (outcome : FetchOutcome) : StorageState × Option String × Except ApiError JsonBody :=
  (s, s.token, ApiClient.call m outcome)

/-- AuthResponse, src/lib/api/auth.ts. -/
structure AuthResponse where
  token : String
  user : User
  deriving DecidableEq, Repr

/-- LoginCredentials, src/lib/api/auth.ts. -/
structure LoginCredentials where
  email : String
  password : String
  deriving DecidableEq, Repr

/-- RegisterData, src/lib/api/auth.ts. -/
structure RegisterData where
  email : String
  password : String
  name : String
  deriving DecidableEq, Repr

/-- Storage effect of authApi.login and authApi.register after a successful
POST, src/lib/api/auth.ts: setToken with the response token, then setUserId
with the response user id. -/
def authApiStoreSession (s : StorageState) (r : AuthResponse) : StorageState :=
  ApiClient.setUserId (ApiClient.setToken s (some r.token)) (some r.user.id)

/-- Storage effect of authApi.logout, src/lib/api/auth.ts: the POST runs
first, so when it throws the two setter calls after it never execute. -/
def authApiLogoutEffect (s : StorageState) (backendOk : Bool) : StorageState :=
  if backendOk then ApiClient.setUserId (ApiClient.setToken s none) none
  else s

/-- Failure surfaced by the login and register operations of the auth
context: a rethrown ApiError, or the generic wrapped error. -/
inductive AuthFailure
  | api (e : ApiError)
  | generic (message : String)
  deriving DecidableEq, Repr

/-- The login operation, src/contexts/AuthContext.tsx lines 121-137 composed
with authApi.login: in bypass mode it installs the mock user with no backend
call; otherwise it posts to /auth/login, stores the session on success, and
surfaces the failure (ApiError untouched, otherwise a generic error). -/
def AuthContext.login (useMockAuth : Bool) (now : Nat) (st : ClientState)
    (credentials : LoginCredentials)
    (backend : LoginCredentials → Except Thrown AuthResponse) :
    ClientState × List String × Option AuthFailure :=
  if useMockAuth then
    (applyUser true now st (some MOCK_USER), [], none)
  else
    match backend credentials with
    | Except.ok r =>
        let st1 := { st with storage := authApiStoreSession st.storage r }
        (applyUser false now st1 (some r.user), ["/auth/login"], none)
    | Except.error (Thrown.api e) =>
        (st, ["/auth/login"], some (AuthFailure.api e))
    | Except.error (Thrown.other _) =>
        (st, ["/auth/login"], some (AuthFailure.generic "Login failed"))

/-- The register operation, src/contexts/AuthContext.tsx lines 139-155
composed with authApi.register; same contract as login. -/
def AuthContext.register (useMockAuth : Bool) (now : Nat) (st : ClientState)
    (data : RegisterData)
    (backend : RegisterData → Except Thrown AuthResponse) :
    ClientState × List String × Option AuthFailure :=
  if useMockAuth then
    (applyUser true now st (some MOCK_USER), [], none)
  else
    match backend data with
    | Except.ok r =>
        let st1 := { st with storage := authApiStoreSession st.storage r }
        (applyUser false now st1 (some r.user), ["/auth/register"], none)
    | Except.error (Thrown.api e) =>
        (st, ["/auth/register"], some (AuthFailure.api e))
    | Except.error (Thrown.other _) =>
        (st, ["/auth/register"], some (AuthFailure.generic "Registration failed"))

/-- The refreshUser operation, src/contexts/AuthContext.tsx lines 57-76: in
bypass mode it installs the mock user with no backend call; otherwise it
fetches /auth/me and applies the user, or null on failure; loading ends
false in every branch. -/
def AuthContext.refreshUser (useMockAuth : Bool) (now : Nat) (st : ClientState)
    (backend : Except Thrown User) : ClientState × List String :=
  if useMockAuth then
    ({ applyUser true now st (some MOCK_USER) with loading := false }, [])
  else
    match backend with
    | Except.ok u => ({ applyUser false now st (some u) with loading := false }, ["/auth/me"])
    | Except.error _ => ({ applyUser false now st none with loading := false }, ["/auth/me"])

/-- The logout operation, src/contexts/AuthContext.tsx lines 157-171: in
bypass mode it just clears the user; otherwise it posts to /auth/logout
(errors swallowed) and always clears the user via applyUser null. -/
def AuthContext.logout (useMockAuth : Bool) (now : Nat) (st : ClientState)
    (backendOk : Bool) : ClientState × List String :=
  if useMockAuth then
    (applyUser true now st none, [])
  else
    let st1 := { st with storage := authApiLogoutEffect st.storage backendOk }
    (applyUser false now st1 none, ["/auth/logout"])

/-- The isAuthenticated value of the context, src/contexts/AuthContext.tsx
line 176. -/
def isAuthenticated (user : Option User) : Bool :=
  user.isSome

/-- The isAdmin value of the context, src/contexts/AuthContext.tsx line 177:
the role is admin or super-admin. -/
def isAdmin (user : Option User) : Bool :=
  match user with
  | some u => u.role == Role.admin || u.role == Role.superAdmin
  | none => false

/-- Session timeout, src/contexts/AuthContext.tsx line 86: 60 minutes. -/
def SESSION_TIMEOUT_MS : Nat := 60 * 60 * 1000

/-- Warning lead time, src/contexts/AuthContext.tsx line 87: 5 minutes before
the timeout. -/
def WARNING_TIME_MS : Nat := 5 * 60 * 1000

/-- Period of the watchdog interval, src/contexts/AuthContext.tsx line 106:
every 60 seconds. -/
def SESSION_CHECK_INTERVAL_MS : Nat := 60 * 1000

/-- Whether the timeout effect installs its interval and activity listeners,
src/contexts/AuthContext.tsx line 84: only with a user present and bypass
mode off. -/
def watchdogEnabled (useMockAuth : Bool) (user : Option User) : Bool :=
  user.isSome && !useMockAuth

/-- Action taken by one run of checkTimeout. -/
inductive WatchdogAction
  | expire (redirectTo : String)
  | warnSoon
  | noop
  deriving DecidableEq, Repr

/-- checkTimeout, src/contexts/AuthContext.tsx lines 89-103: at or past the
timeout it logs out and redirects to /login?reason=timeout; at or past the
warning threshold it warns; otherwise it does nothing. -/
def checkTimeout (now lastActivity : Nat) : WatchdogAction :=
  let timeSinceActivity := now - lastActivity
  if SESSION_TIMEOUT_MS ≤ timeSinceActivity then
    WatchdogAction.expire "/login?reason=timeout"
  else if SESSION_TIMEOUT_MS - WARNING_TIME_MS ≤ timeSinceActivity then
    WatchdogAction.warnSoon
  else
    WatchdogAction.noop

/-- What ProtectedRoute renders. -/
inductive RouteRender
  | children
  | spinner
  | blank
  deriving DecidableEq, Repr

/-- Redirect issued by the ProtectedRoute effect. -/
inductive RouteEffect
  | noop
  | redirectLogin
  | redirectChat
  deriving DecidableEq, Repr

/-- Render result of ProtectedRoute, src/components/auth/ProtectedRoute.tsx
lines 35-51: bypass mode always shows the children; otherwise a spinner
while loading, nothing when unauthenticated or when admin is required but
the user is not an admin, and the children else. -/
def ProtectedRoute.render (useMockAuth requireAdmin loading : Bool)
    (user : Option User) : RouteRender :=
  if useMockAuth then RouteRender.children
  else if loading then RouteRender.spinner
  else if !isAuthenticated user || (requireAdmin && !isAdmin user) then RouteRender.blank
  else RouteRender.children

/-- Redirect effect of ProtectedRoute, src/components/auth/ProtectedRoute.tsx
lines 19-32. -/
def ProtectedRoute.effect (useMockAuth requireAdmin loading : Bool)
    (user : Option User) : RouteEffect :=
  if useMockAuth then RouteEffect.noop
  else if loading then RouteEffect.noop
  else if !isAuthenticated user then RouteEffect.redirectLogin
  else if requireAdmin && !isAdmin user then RouteEffect.redirectChat
  else RouteEffect.noop

/-- The admin dashboard page, src/app/admin/page.tsx line 479, mounts
ProtectedRoute with no requireAdmin prop; the prop defaults to false. -/
def adminDashboardRequireAdmin : Bool := false

/-- The second admin page (in the src/components/chat/MessageBubble.tsx
source file, line 503) mounts ProtectedRoute with requireAdmin set. -/
def secondaryAdminRequireAdmin : Bool := true

/-- Role of a chat message, from src/lib/api/chat.ts. -/
inductive MessageRole
  | user
  | assistant
  | system
  deriving DecidableEq, Repr

/-- Message, from src/lib/api/chat.ts. -/
structure Message where
  id : String
  content : String
  role : MessageRole
  timestamp : String
  conversationId : Option String
  deriving DecidableEq, Repr

/-- Conversation, from src/lib/api/chat.ts. -/
structure Conversation where
  id : String
  title : String
  createdAt : String
  updatedAt : String
  messageCount : Nat
  deriving DecidableEq, Repr

/-- SendMessageResponse, from src/lib/api/chat.ts. -/
structure SendMessageResponse where
  message : Message
  conversationId : String
  deriving DecidableEq, Repr

/-- The user message constructed in handleSendMessage, src/app/chat/page.tsx
lines 84-90: a temp id from Date.now(), the sent text, the user role, the
current timestamp, and the conversation id of the response. -/
def mkUserMessage (now : Nat) (nowIso : String) (messageText : String)
    (conversationId : String) : Message :=
  { id := "temp-" ++ toString now
    content := messageText
    role := MessageRole.user
    timestamp := nowIso
    conversationId := some conversationId }

/-- Message-list update on the success path of handleSendMessage,
src/app/chat/page.tsx lines 77-103: append the user message, then append the
backend reply; the intermediate conversation reloads leave messages alone. -/
def handleSendMessageMessages (messages : List Message) (now : Nat)
    (nowIso : String) (messageText : String)
    (response : SendMessageResponse) : List Message :=
  let userMessage := mkUserMessage now nowIso messageText response.conversationId
  (messages ++ [userMessage]) ++ [response.message]

/-- State of the chat page, src/app/chat/page.tsx lines 16-20. -/
structure ChatState where
  messages : List Message
  conversations : List Conversation
  currentConversationId : Option String
  deriving DecidableEq, Repr

/-- Modelled from the spec: the DELETE /chat/conversations/id endpoint lives
in the excluded FastAPI backend; per the spec deleting a conversation removes
it, so the backend conversation list is modelled as a list from which every
conversation with the given id is removed. -/
def backendDeleteConversation (conversations : List Conversation)
    (conversationId : String) : List Conversation :=
  conversations.filter (fun c => c.id != conversationId)

/-- handleDeleteConversation success path, src/app/chat/page.tsx lines
125-136: delete on the backend; when the deleted conversation is the current
one, unset the selection and clear the messages; then reload the
conversation list from the backend. -/
def handleDeleteConversation (st : ChatState)
    (backendConversations : List Conversation) (conversationId : String) :
    ChatState × List Conversation :=
  let backendAfter := backendDeleteConversation backendConversations conversationId
  let st1 :=
    if st.currentConversationId == some conversationId then
      { st with currentConversationId := none, messages := [] }
    else st
  ({ st1 with conversations := backendAfter }, backendAfter)

/-- Components of the front end as named by the spec. -/
inductive Component
  | apiClient
  | sessionStore
  | pageController
  deriving DecidableEq, Repr

/-- The UI-reachable operations of the repository that issue API calls or
touch the session: plain client requests, the four session-store operations,
and the chat and admin page operations. -/
inductive Operation
  | clientRequest (m : Method)
  | storeLogin
  | storeRegister
  | storeLogout
  | storeRefreshUser
  | chatSendMessage
  | chatGetConversations
  | chatGetHistory
  | chatDeleteConversation
  | adminGetStats
  | adminGetUsers
  | adminGetSettings
  | adminUpdateSettings
  | adminApiKeys
  deriving DecidableEq, Repr

/-- The component each operation belongs to: the raw request methods form the
API client, login/register/logout/refreshUser form the session store, and
the chat and admin handlers are page controllers. -/
def Operation.component : Operation → Component
  | Operation.clientRequest _ => Component.apiClient
  | Operation.storeLogin => Component.sessionStore
  | Operation.storeRegister => Component.sessionStore
  | Operation.storeLogout => Component.sessionStore
  | Operation.storeRefreshUser => Component.sessionStore
  | Operation.chatSendMessage => Component.pageController
  | Operation.chatGetConversations => Component.pageController
  | Operation.chatGetHistory => Component.pageController
  | Operation.chatDeleteConversation => Component.pageController
  | Operation.adminGetStats => Component.pageController
  | Operation.adminGetUsers => Component.pageController
  | Operation.adminGetSettings => Component.pageController
  | Operation.adminUpdateSettings => Component.pageController
  | Operation.adminApiKeys => Component.pageController

/-- Inputs an operation may consume when it runs. -/
structure OpInputs where
  useMockAuth : Bool
  now : Nat
  credentials : LoginCredentials
  regData : RegisterData
  loginBackend : LoginCredentials → Except Thrown AuthResponse
  registerBackend : RegisterData → Except Thrown AuthResponse
  meBackend : Except Thrown User
  backendOk : Bool
  fetchOutcome : FetchOutcome

/-- Storage state after running each operation, following the call chain of
the source: the chat and admin handlers delegate to the get/post/put/delete
methods of the client, which only read the token; the session-store
operations update storage through applyUser and the authApi setter calls
they drive. -/
def Operation.runStorage (op : Operation) (st : ClientState) (inp : OpInputs) :
    StorageState :=
  match op with
  | Operation.clientRequest m =>
      (ApiClient.callWithStorage m st.storage inp.fetchOutcome).1
  | Operation.storeLogin =>
      (AuthContext.login inp.useMockAuth inp.now st inp.credentials inp.loginBackend).1.storage
  | Operation.storeRegister =>
      (AuthContext.register inp.useMockAuth inp.now st inp.regData inp.registerBackend).1.storage
  | Operation.storeLogout =>
      (AuthContext.logout inp.useMockAuth inp.now st inp.backendOk).1.storage
  | Operation.storeRefreshUser =>
      (AuthContext.refreshUser inp.useMockAuth inp.now st inp.meBackend).1.storage
  | Operation.chatSendMessage =>
      (ApiClient.callWithStorage Method.post st.storage inp.fetchOutcome).1
  | Operation.chatGetConversations =>
      (ApiClient.callWithStorage Method.get st.storage inp.fetchOutcome).1
  | Operation.chatGetHistory =>
      (ApiClient.callWithStorage Method.get st.storage inp.fetchOutcome).1
  | Operation.chatDeleteConversation =>
      (ApiClient.callWithStorage Method.delete st.storage inp.fetchOutcome).1
  | Operation.adminGetStats =>
      (ApiClient.callWithStorage Method.get st.storage inp.fetchOutcome).1
  | Operation.adminGetUsers =>
      (ApiClient.callWithStorage Method.get st.storage inp.fetchOutcome).1
  | Operation.adminGetSettings =>
      (ApiClient.callWithStorage Method.get st.storage inp.fetchOutcome).1
  | Operation.adminUpdateSettings =>
      (ApiClient.callWithStorage Method.put st.storage inp.fetchOutcome).1
  | Operation.adminApiKeys =>
      (ApiClient.callWithStorage Method.get st.storage inp.fetchOutcome).1

/-- Settings record with an out-of-range temperature of 5 and maxTokens 0. -/
def outOfRangeSettings : SystemSettings :=
  { model := "GPT-4"
    temperature := 5
    maxTokens := 0
    systemPrompt := "You are a helpful assistant"
    rateLimit := 10 }

/-- An authenticated visitor whose role is user. -/
def roleUserVisitor : User :=
  { id := "u-1"
    email := "user@example.com"
    name := "Regular User"
    role := Role.user
    createdAt := "2024-01-02T00:00:00Z" }

/-- Sample stored session. -/
def sampleStorage : StorageState := { token := some "tok", userId := some "u-1" }

/-- Sample client state with an authenticated role-user visitor. -/
def sampleClientState : ClientState :=
  { user := some roleUserVisitor
    loading := false
    lastActivity := 0
    storage := sampleStorage }

/-- Sample backend reply message with the assistant role. -/
def sampleReply : Message :=
  { id := "m-2"
    content := "Hello!"
    role := MessageRole.assistant
    timestamp := "2024-01-01T00:00:01Z"
    conversationId := some "c-1" }

/-- Sample send-message response. -/
def sampleSendResponse : SendMessageResponse :=
  { message := sampleReply, conversationId := "c-1" }

/-- Sample conversation. -/
def sampleConversation : Conversation :=
  { id := "c-1"
    title := "First"
    createdAt := "2024-01-01"
    updatedAt := "2024-01-01"
    messageCount := 2 }

/-- Sample chat state with the sample conversation selected. -/
def sampleChatState : ChatState :=
  { messages := [sampleReply]
    conversations := [sampleConversation]
    currentConversationId := some "c-1" }

/-- Sample operation inputs with an unreachable backend. -/
def sampleOpInputs : OpInputs :=
  { useMockAuth := false
    now := 0
    credentials := { email := "a@example.com", password := "pw123456" }
    regData := { email := "a@example.com", password := "pw123456", name := "A" }
    loginBackend := fun _ => Except.error (Thrown.other "down")
    registerBackend := fun _ => Except.error (Thrown.other "down")
    meBackend := Except.error (Thrown.other "down")
    backendOk := true
    fetchOutcome := FetchOutcome.networkFailure "down" }

/-- Development environment with the explicit mock-auth toggle unset. -/
def devEnv : Env := { nextPublicUseMockAuth := none, nodeEnv := some "development" }

/-- Sample parsed error body. -/
def notFoundBody : JsonBody := { message := some "Not found", rest := "r" }

/-- ApiError expected from a 404 with the sample body. -/
def notFoundError : ApiError :=
  { message := "Not found", status := 404, data := some notFoundBody }

/-- ApiError expected from a fetch rejection. -/
def networkError : ApiError := { message := "fetch failed", status := 0, data := none }

/-- ApiError expected from a 500 with an unparsable body. -/
def serverError : ApiError :=
  { message := httpErrorMessage 500, status := 500, data := some emptyBody }

/-- Placeholder ApiError used to instantiate unused arguments. -/
def dummyError : ApiError := { message := "x", status := 0, data := none }

/-- Client state after the mock user is applied in bypass mode: the mock
user installed, the mock token and mock user id stored, lastActivity set to
the current time. -/
def mockSessionState (loading : Bool) (now : Nat) : ClientState :=
  { user := some MOCK_USER
    loading := loading
    lastActivity := now
    storage := { token := some MOCK_TOKEN, userId := some MOCK_USER.id } }

/-- Helper: clamping into a fixed interval is idempotent. -/
theorem clamp_idem {α : Type} [LinearOrder α] (lo hi t : α) (h : lo ≤ hi) :
    min hi (max lo (min hi (max lo t))) = min hi (max lo t) := by
  have h1 : lo ≤ min hi (max lo t) := le_min h (le_max_left lo t)
  have h2 : min hi (max lo t) ≤ hi := min_le_left hi (max lo t)
  rw [max_eq_right h1, min_eq_right h2]

/-- Claim C1 counterexample: on the secondary settings submission path (the
second SystemSettingsForm) the payload handed to updateSystemSettings is the
raw form data, so an input temperature of 5 is submitted as 5 rather than 2,
outside the interval from 0 to 2, and an input maxTokens of 0 is submitted
as 0 rather than 1. -/
theorem c1_counterexample :
    (submitPayload SettingsPath.secondary outOfRangeSettings).temperature = 5
    ∧ ¬ (submitPayload SettingsPath.secondary outOfRangeSettings).temperature ≤ 2
    ∧ (submitPayload SettingsPath.secondary outOfRangeSettings).maxTokens = 0 := by
  refine ⟨rfl, ?_, rfl⟩
  norm_num [submitPayload, secondarySubmitPayload, outOfRangeSettings]

/-- Claim C1 (amended): on the admin dashboard submission path the payload
passed to updateSystemSettings is bounds-checked before submission, its
temperature clamped into the interval from 0 to 2 and its maxTokens into the
interval from 1 to 4096; an input temperature of 5 is submitted as 2 and an
input maxTokens of 0 is submitted as 1. The secondary path submits the form
data unchanged. -/
theorem c1_dashboard_clamps (formData : SystemSettings) :
    0 ≤ (submitPayload SettingsPath.dashboard formData).temperature
    ∧ (submitPayload SettingsPath.dashboard formData).temperature ≤ 2
    ∧ 1 ≤ (submitPayload SettingsPath.dashboard formData).maxTokens
    ∧ (submitPayload SettingsPath.dashboard formData).maxTokens ≤ 4096
    ∧ (submitPayload SettingsPath.dashboard outOfRangeSettings).temperature = 2
    ∧ (submitPayload SettingsPath.dashboard outOfRangeSettings).maxTokens = 1 := by
  refine ⟨?_, ?_, ?_, ?_, ?_, ?_⟩
  · exact le_min (by norm_num) (le_max_left 0 _)
  · exact min_le_left _ _
  · exact le_min (by norm_num) (le_max_left 1 _)
  · exact min_le_left _ _
  · show min 2 (max 0 (5 : ℚ)) = 2
    norm_num
  · show min 4096 (max 1 (0 : ℤ)) = 1
    decide

/-- Claim C2: the settings normalization applied on save (the clamping step
of the dashboard handleSubmit) is idempotent: applying it twice to any
settings input equals applying it once, so an already-clamped record is
returned unchanged. -/
theorem c2_normalize_idempotent (x : SystemSettings) :
    dashboardSubmitPayload (dashboardSubmitPayload x) = dashboardSubmitPayload x := by
  have ht := clamp_idem (0 : ℚ) 2 x.temperature (by norm_num)
  have hm := clamp_idem (1 : ℤ) 4096 x.maxTokens (by norm_num)
  unfold dashboardSubmitPayload
  ext
  · rfl
  · exact ht
  · exact_mod_cast congrArg Int.cast hm
  · rfl
  · rfl

/-- Claim C3 counterexample: with bypass off and loading finished, the admin
dashboard route mounts ProtectedRoute without the requireAdmin prop (which
defaults to false), so it renders the admin content for an authenticated
user whose role is user, and no redirect is issued. -/
theorem c3_counterexample :
    roleUserVisitor.role = Role.user
    ∧ ProtectedRoute.render false adminDashboardRequireAdmin false (some roleUserVisitor)
        = RouteRender.children
    ∧ ProtectedRoute.effect false adminDashboardRequireAdmin false (some roleUserVisitor)
        = RouteEffect.noop := by
  refine ⟨rfl, ?_, ?_⟩ <;> rfl

/-- Claim C3 (amended): the ProtectedRoute gate with requireAdmin set, as
mounted by the secondary admin page, shows the admin content to an
authenticated user iff the role is admin or super-admin, and redirects a
role-user visitor to /chat while rendering nothing; the primary admin
dashboard mounts the gate without requireAdmin, so it renders for every
authenticated user regardless of role. -/
theorem c3_role_gates_admin_ui (u : User) :
    (ProtectedRoute.render false secondaryAdminRequireAdmin false (some u) = RouteRender.children
      ↔ (u.role = Role.admin ∨ u.role = Role.superAdmin))
    ∧ (u.role = Role.user →
        ProtectedRoute.render false secondaryAdminRequireAdmin false (some u) = RouteRender.blank
        ∧ ProtectedRoute.effect false secondaryAdminRequireAdmin false (some u)
            = RouteEffect.redirectChat)
    ∧ ProtectedRoute.render false adminDashboardRequireAdmin false (some u)
        = RouteRender.children := by
  obtain ⟨i, e, n, r, c⟩ := u
  cases r <;>
    simp [ProtectedRoute.render, ProtectedRoute.effect, isAuthenticated, isAdmin,
      secondaryAdminRequireAdmin, adminDashboardRequireAdmin]

/-- Claim C3 witness: instantiating the amended gate property at the
role-user visitor. -/
theorem c3_role_gates_admin_ui_witness :
    ProtectedRoute.render false secondaryAdminRequireAdmin false (some roleUserVisitor)
      = RouteRender.blank
    ∧ ProtectedRoute.effect false secondaryAdminRequireAdmin false (some roleUserVisitor)
      = RouteEffect.redirectChat :=
  (c3_role_gates_admin_ui roleUserVisitor).2.1 rfl

/-- Claim C4: with bypass mode active, login succeeds for every credentials
value, issues no backend call, and installs the fixed mock user (with the
mock token and mock user id stored); register and refreshUser behave the
same on every input. -/
theorem c4_mock_login (now : Nat) (st : ClientState) (credentials : LoginCredentials)
    (data : RegisterData)
    (loginBackend : LoginCredentials → Except Thrown AuthResponse)
    (registerBackend : RegisterData → Except Thrown AuthResponse)
    (meBackend : Except Thrown User) :
    AuthContext.login true now st credentials loginBackend
      = (mockSessionState st.loading now, [], none)
    ∧ AuthContext.register true now st data registerBackend
      = (mockSessionState st.loading now, [], none)
    ∧ AuthContext.refreshUser true now st meBackend
      = (mockSessionState false now, []) := by
  refine ⟨?_, ?_, ?_⟩ <;>
    simp [AuthContext.login, AuthContext.register, AuthContext.refreshUser, applyUser,
      ApiClient.setUserId, ApiClient.setToken, mockSessionState]

/-- Claim C5: while authenticated and outside bypass mode the watchdog is
enabled and its check runs on a 60-second interval; the check compares idle
time against the 60-minute timeout and the 55-minute warning threshold,
forcing a logout (the user becomes none, the anonymous state) with a
redirect to /login?reason=timeout once idle time reaches 60 minutes, and
issuing a warning once idle time reaches 55 minutes (until the timeout
fires). -/
theorem c5_session_watchdog (now lastActivity : Nat) (u : User) (st : ClientState)
    (backendOk : Bool) :
    SESSION_CHECK_INTERVAL_MS = 60 * 1000
    ∧ watchdogEnabled false (some u) = true
    ∧ watchdogEnabled true (some u) = false
    ∧ (SESSION_TIMEOUT_MS ≤ now - lastActivity →
        checkTimeout now lastActivity = WatchdogAction.expire "/login?reason=timeout"
        ∧ (AuthContext.logout false now st backendOk).1.user = none)
    ∧ (SESSION_TIMEOUT_MS - WARNING_TIME_MS ≤ now - lastActivity →
        now - lastActivity < SESSION_TIMEOUT_MS →
        checkTimeout now lastActivity = WatchdogAction.warnSoon)
    ∧ SESSION_TIMEOUT_MS = 60 * 60 * 1000
    ∧ SESSION_TIMEOUT_MS - WARNING_TIME_MS = 55 * 60 * 1000 := by
  refine ⟨rfl, rfl, rfl, ?_, ?_, rfl, rfl⟩
  · intro h
    constructor
    · unfold checkTimeout
      simp only []
      rw [if_pos h]
    · simp [AuthContext.logout, applyUser, authApiLogoutEffect]
  · intro h1 h2
    unfold checkTimeout
    simp only []
    rw [if_neg (by omega), if_pos h1]

/-- Claim C5 witness: the watchdog at 60 minutes of idle time expires the
session, and at 55 minutes it warns. -/
theorem c5_session_watchdog_witness :
    checkTimeout 3600000 0 = WatchdogAction.expire "/login?reason=timeout"
    ∧ (AuthContext.logout false 3600000 sampleClientState true).1.user = none
    ∧ checkTimeout 3300000 0 = WatchdogAction.warnSoon :=
  ⟨((c5_session_watchdog 3600000 0 roleUserVisitor sampleClientState true).2.2.2.1
      (by decide)).1,
   ((c5_session_watchdog 3600000 0 roleUserVisitor sampleClientState true).2.2.2.1
      (by decide)).2,
   (c5_session_watchdog 3300000 0 roleUserVisitor sampleClientState true).2.2.2.2.1
      (by decide) (by decide)⟩

/-- Claim C6: for every method of the API client, a non-2xx response fails
with an ApiError carrying that HTTP status and the parsed response body, a
fetch rejection fails with an ApiError whose status is 0 and no data, and an
ApiError thrown inside the request is rethrown unchanged by the catch
clause, never rewrapped. -/
theorem c6_api_error_contract (m : Method) (status : Nat) (bp : BodyParse)
    (msg : String) (e : ApiError) (outcome : FetchOutcome) :
    (responseOk status = false →
      ApiClient.call m (FetchOutcome.response status bp)
        = Except.error
            { message := jsOrElse (parseBody bp).message (httpErrorMessage status)
              status := status
              data := some (parseBody bp) })
    ∧ ApiClient.call m (FetchOutcome.networkFailure msg)
        = Except.error { message := msg, status := 0, data := none }
    ∧ (requestTryBlock outcome = Except.error (Thrown.api e) →
        ApiClient.call m outcome = Except.error e) := by
  refine ⟨?_, rfl, ?_⟩
  · intro h
    simp [ApiClient.call, ApiClient.request, requestTryBlock, h]
  · intro h
    simp [ApiClient.call, ApiClient.request, h]

/-- Claim C6 witness: a 404 response with a parsed body, a network failure,
and a thrown ApiError on a 500 response with an unparsable body. -/
theorem c6_api_error_contract_witness :
    ApiClient.call Method.get (FetchOutcome.response 404 (BodyParse.parsed notFoundBody))
      = Except.error notFoundError
    ∧ ApiClient.call Method.post (FetchOutcome.networkFailure "fetch failed")
      = Except.error networkError
    ∧ ApiClient.call Method.put (FetchOutcome.response 500 BodyParse.failed)
      = Except.error serverError :=
  ⟨(c6_api_error_contract Method.get 404 (BodyParse.parsed notFoundBody)
      "x" dummyError (FetchOutcome.networkFailure "x")).1 rfl,
   (c6_api_error_contract Method.post 200 BodyParse.failed "fetch failed"
      dummyError (FetchOutcome.networkFailure "x")).2.1,
   (c6_api_error_contract Method.put 500 BodyParse.failed "x"
      serverError (FetchOutcome.response 500 BodyParse.failed)).2.2 rfl⟩

/-- Claim C7: when sending a chat message succeeds, the new message sequence
is the old one with exactly one user message carrying the sent text appended,
followed by exactly one assistant message (the backend reply); every prior
message is preserved unchanged in place. -/
theorem c7_send_appends (messages : List Message) (now : Nat)
    (nowIso messageText : String) (response : SendMessageResponse)
    (h : response.message.role = MessageRole.assistant) :
    handleSendMessageMessages messages now nowIso messageText response
      = messages
        ++ [mkUserMessage now nowIso messageText response.conversationId, response.message]
    ∧ (mkUserMessage now nowIso messageText response.conversationId).role = MessageRole.user
    ∧ (mkUserMessage now nowIso messageText response.conversationId).content = messageText
    ∧ response.message.role = MessageRole.assistant := by
  refine ⟨?_, rfl, rfl, h⟩
  simp [handleSendMessageMessages]

/-- Claim C7 witness: sending Hi against the sample backend response appends
the user message and the assistant reply to the empty sequence. -/
theorem c7_send_appends_witness :
    handleSendMessageMessages [] 5 "2024-01-01T00:00:00Z" "Hi" sampleSendResponse
      = []
        ++ [mkUserMessage 5 "2024-01-01T00:00:00Z" "Hi" sampleSendResponse.conversationId,
            sampleSendResponse.message] :=
  (c7_send_appends [] 5 "2024-01-01T00:00:00Z" "Hi" sampleSendResponse rfl).1

/-- Claim C8: browser storage of the token and user id is mutated only by
the session-store operations (which go through the explicit setToken and
setUserId setter calls): every other operation, including every raw API
client request, leaves the storage state unchanged. -/
theorem c8_storage_frame (op : Operation) (st : ClientState) (inp : OpInputs)
    (h : op.component ≠ Component.sessionStore) :
    Operation.runStorage op st inp = st.storage := by
  cases op <;> first
    | rfl
    | exact absurd rfl h

/-- Claim C8 witness: a plain GET request leaves storage unchanged. -/
theorem c8_storage_frame_witness :
    Operation.runStorage (Operation.clientRequest Method.get) sampleClientState sampleOpInputs
      = sampleClientState.storage :=
  c8_storage_frame (Operation.clientRequest Method.get) sampleClientState sampleOpInputs
    (by decide)

/-- Claim C9: after deleting the currently selected conversation, the visible
message list is empty, the current selection is unset, and no conversation
with the deleted id remains in the conversation list. -/
theorem c9_delete_selected (st : ChatState) (backendConversations : List Conversation)
    (conversationId : String)
    (h : st.currentConversationId = some conversationId) :
    (handleDeleteConversation st backendConversations conversationId).1.messages = []
    ∧ (handleDeleteConversation st backendConversations conversationId).1.currentConversationId
        = none
    ∧ ∀ c ∈ (handleDeleteConversation st backendConversations conversationId).1.conversations,
        c.id ≠ conversationId := by
  refine ⟨?_, ?_, ?_⟩
  · simp [handleDeleteConversation, h]
  · simp [handleDeleteConversation, h]
  · intro c hc
    simp [handleDeleteConversation, backendDeleteConversation, List.mem_filter] at hc
    exact hc.2

/-- Claim C9 witness: deleting the selected sample conversation clears the
messages and the selection. -/
theorem c9_delete_selected_witness :
    (handleDeleteConversation sampleChatState [sampleConversation] "c-1").1.messages = []
    ∧ (handleDeleteConversation sampleChatState [sampleConversation] "c-1").1.currentConversationId
        = none :=
  ⟨(c9_delete_selected sampleChatState [sampleConversation] "c-1" rfl).1,
   (c9_delete_selected sampleChatState [sampleConversation] "c-1" rfl).2.1⟩

/-- Claim C10: when NODE_ENV is development the bypass flag is on even with
the explicit toggle unset; the mock user role is admin, so isAdmin holds
after every login, register and refreshUser in bypass mode, and the
ProtectedRoute gate renders its children with no redirect for every visitor,
with or without credentials. -/
theorem c10_mock_mode_admin (env : Env) (now : Nat) (st : ClientState)
    (credentials : LoginCredentials) (data : RegisterData)
    (loginBackend : LoginCredentials → Except Thrown AuthResponse)
    (registerBackend : RegisterData → Except Thrown AuthResponse)
    (meBackend : Except Thrown User)
    (requireAdmin loading : Bool) (visitor : Option User)
    (h : env.nodeEnv = some "development") :
    USE_MOCK_AUTH env = true
    ∧ MOCK_USER.role = Role.admin
    ∧ isAdmin (AuthContext.login true now st credentials loginBackend).1.user = true
    ∧ isAdmin (AuthContext.register true now st data registerBackend).1.user = true
    ∧ isAdmin (AuthContext.refreshUser true now st meBackend).1.user = true
    ∧ ProtectedRoute.render true requireAdmin loading visitor = RouteRender.children
    ∧ ProtectedRoute.effect true requireAdmin loading visitor = RouteEffect.noop := by
  refine ⟨?_, rfl, ?_, ?_, ?_, rfl, rfl⟩
  · simp [USE_MOCK_AUTH, h]
  all_goals
    simp [AuthContext.login, AuthContext.register, AuthContext.refreshUser, applyUser,
      isAdmin, MOCK_USER]

/-- Claim C10 witness: the development environment with the toggle unset
turns the bypass flag on, and the mock user is an admin. -/
theorem c10_mock_mode_admin_witness :
    USE_MOCK_AUTH devEnv = true ∧ MOCK_USER.role = Role.admin :=
  ⟨(c10_mock_mode_admin devEnv 0 sampleClientState sampleOpInputs.credentials
      sampleOpInputs.regData sampleOpInputs.loginBackend sampleOpInputs.registerBackend
      sampleOpInputs.meBackend false false none rfl).1,
   (c10_mock_mode_admin devEnv 0 sampleClientState sampleOpInputs.credentials
      sampleOpInputs.regData sampleOpInputs.loginBackend sampleOpInputs.registerBackend
      sampleOpInputs.meBackend false false none rfl).2.1⟩

end Chatbot
